import Mathlib

/-!
Verification of the scramjet routing and transport fabric against its
specification. The definitions below are a shallow embedding of the Rust
source (crates scramjet-net and scramjet-common): hash maps become
functions into Option, hash sets become finite sets, atomics become plain
state fields, and network calls become explicit oracle arguments.
-/

namespace Scramjet

/-- Validator public key: 32 bytes, modelled as the list of byte values
(the result of base58 decoding, see pubkeyFromStr below). -/
abbrev Pubkey := List Nat

/-- QUIC socket address (IP + UDP port), modelled as an opaque identifier;
only equality of addresses matters to the routing logic. -/
abbrev SocketAddr := Nat

/-! ## Cartographer state (cartographer.rs)

The Cartographer holds the node map (pubkey to QUIC socket), the leader
schedule (slot to leader pubkey), the current slot and epoch, and a shared
blocklist handle. -/

structure CartState where
  nodeMap : Pubkey → Option SocketAddr
  schedule : Nat → Option Pubkey
  blocklist : Finset Pubkey

/-- Model of the atomic slot tracker of the Cartographer. -/
structure SlotState where
  currentSlot : Nat
deriving DecidableEq

/-- Cartographer.get_known_slot: atomic load of the slot tracker. -/
def getKnownSlot (st : SlotState) : Nat :=
  st.currentSlot

/-- Cartographer.update_slot: atomic swap of the slot tracker; the old
value is only compared for the debug log, the store is unconditional. -/
def updateSlot (st : SlotState) (slot : Nat) : SlotState :=
  { st with currentSlot := slot }

/-- Cartographer.get_target: three step lookup.
Step 1 looks up the leader pubkey for the slot in the schedule (None on a
miss); step 2 returns None if the leader is in the blocklist; step 3
resolves the pubkey through the node map. -/
def getTarget (st : CartState) (slot : Nat) : Option SocketAddr :=
  match st.schedule slot with
  | none => none
  | some leaderPubkey =>
    if leaderPubkey ∈ st.blocklist then none
    else st.nodeMap leaderPubkey

/-- The ascending list of slots current+1 .. current+lookahead scanned by
Cartographer.get_upcoming_leaders (the Rust loop for i in 1..=lookahead). -/
def upcomingSlots (currentSlot lookahead : Nat) : List Nat :=
  (List.range lookahead).map (fun i => currentSlot + (i + 1))

/-- Loop body of Cartographer.get_upcoming_leaders: for each slot, look up
the leader in the schedule, skip blocked validators, resolve the address
in the node map, and push it onto the accumulator unless already present. -/
def upcomingLoop (st : CartState) : List Nat → List SocketAddr → List SocketAddr
  | [], acc => acc
  | targetSlot :: rest, acc =>
    match st.schedule targetSlot with
    | none => upcomingLoop st rest acc
    | some pk =>
      if pk ∈ st.blocklist then upcomingLoop st rest acc
      else
        match st.nodeMap pk with
        | none => upcomingLoop st rest acc
        | some addr =>
          if addr ∈ acc then upcomingLoop st rest acc
          else upcomingLoop st rest (acc ++ [addr])

/-- Cartographer.get_upcoming_leaders: deduplicated upcoming leader
sockets for the slots current+1 .. current+lookahead. -/
def getUpcomingLeaders (st : CartState) (currentSlot lookahead : Nat) :
    List SocketAddr :=
  upcomingLoop st (upcomingSlots currentSlot lookahead) []

/-- Specification-side first-encounter deduplication: keep each element at
its first occurrence, dropping every later duplicate; seen records the
elements already emitted. -/
def firstDedupAux (seen : List SocketAddr) : List SocketAddr → List SocketAddr
  | [] => []
  | a :: l =>
    if a ∈ seen then firstDedupAux seen l
    else a :: firstDedupAux (a :: seen) l

/-- First-encounter deduplication of a list. -/
def firstDedup (l : List SocketAddr) : List SocketAddr :=
  firstDedupAux [] l

/-! ## Base58 pubkey parsing (solana Pubkey::from_str, used by blocklist.rs)

Pubkey::from_str rejects strings longer than 44 characters, base58-decodes
the input with the Bitcoin alphabet, and rejects any decode whose byte
length is not exactly 32. -/

/-- The Bitcoin base58 alphabet. -/
def base58Alphabet : List Char :=
  "123456789ABCDEFGHJKLMNPQRSTUVWXYZabcdefghijkmnopqrstuvwxyz".toList

/-- Digit value of one base58 character; none for characters outside the
alphabet. -/
def base58Digit (c : Char) : Option Nat :=
  base58Alphabet.findIdx? (fun x => x = c)

/-- Big-endian byte representation of a natural number, empty for zero;
the first argument is recursion fuel (the value itself always suffices). -/
def natToBytesFuel : Nat → Nat → List Nat
  | 0, _ => []
  | fuel + 1, n => if n = 0 then [] else natToBytesFuel fuel (n / 256) ++ [n % 256]

/-- Big-endian byte representation of a natural number. -/
def natToBytes (n : Nat) : List Nat :=
  natToBytesFuel n n

/-- Base58 decoding: every character must be in the alphabet; each leading
character 1 contributes one leading zero byte, and the digit string read
as a base-58 number contributes the remaining bytes. -/
def base58Decode (s : String) : Option (List Nat) :=
  match s.toList.mapM base58Digit with
  | none => none
  | some digits =>
    let n := digits.foldl (fun acc d => acc * 58 + d) 0
    let leading := (s.toList.takeWhile (fun c => c = '1')).length
    some (List.replicate leading 0 ++ natToBytes n)

/-- Pubkey::from_str: length cap 44, base58 decode, exact 32-byte size. -/
def pubkeyFromStr (s : String) : Option Pubkey :=
  if s.length > 44 then none
  else
    match base58Decode s with
    | none => none
    | some bs => if bs.length = 32 then some bs else none

/-! ## Blocklist parsing and remote fetch (blocklist.rs) -/

/-- Whitespace recogniser matching the characters str::trim strips in the
ASCII range (the blocklist format is ASCII). -/
def isWsChar (c : Char) : Bool :=
  c = ' ' || c = '\t' || c = '\n' || c = '\r'

/-- Trim whitespace from both ends of a string (model of str::trim). -/
def trimStr (s : String) : String :=
  String.mk (((s.toList.dropWhile isWsChar).reverse.dropWhile isWsChar).reverse)

/-- Whether a string starts with the given character. -/
def startsWithChar (c : Char) (s : String) : Bool :=
  match s.toList with
  | [] => false
  | d :: _ => d = c

/-- Split a character list at every newline, keeping empty pieces
(semantics of splitting on one separator character). -/
def splitNewline : List Char → List (List Char)
  | [] => [[]]
  | c :: cs =>
    if c = '\n' then [] :: splitNewline cs
    else
      match splitNewline cs with
      | [] => [[c]]
      | l :: ls => (c :: l) :: ls

/-- The line splitting performed by str::lines in Rust: split on the
newline character, drop one trailing empty piece (a final line ending is
optional), and strip one trailing carriage return from each line. -/
def rustLines (s : String) : List String :=
  let parts := splitNewline s.toList
  let parts :=
    match parts.getLast? with
    | some [] => parts.dropLast
    | _ => parts
  parts.map (fun cs =>
    String.mk (if cs.getLast? = some '\r' then cs.dropLast else cs))

/-- One line of BlocklistManager.parse_blocklist: trim, skip blank lines
and lines starting with the comment character, parse the rest as a
base58 pubkey, skipping malformed lines. -/
def blocklistLine (line : String) : Option Pubkey :=
  if trimStr line = "" then none
  else if startsWithChar '#' (trimStr line) then none
  else pubkeyFromStr (trimStr line)

/-- BlocklistManager.parse_blocklist: the set (Rust HashSet) of pubkeys
collected from the surviving lines. -/
def parseBlocklist (content : String) : Finset Pubkey :=
  ((rustLines content).filterMap blocklistLine).toFinset

/-- Outcome of one BlocklistManager.fetch_remote call: the returned
result, the in-memory blocklist afterwards, and the set written to the
local file (none when nothing was written). -/
structure FetchOutcome where
  result : Except String Nat
  blocklist : Finset Pubkey
  fileWrite : Option (Finset Pubkey)

/-- BlocklistManager.fetch_remote, with the network modelled by oracle
arguments: response is none when the GET itself fails and otherwise
carries the success flag of the HTTP status and the body text; persistOk
tells whether the local file write succeeds (its failure is logged and
ignored by the source). current is the in-memory set before the call. -/
def fetchRemote (remoteUrl : Option String) (response : Option (Bool × String))
    (persistOk : Bool) (current : Finset Pubkey) : FetchOutcome :=
  match remoteUrl with
  | none => ⟨.error "No remote URL configured (local-only mode)", current, none⟩
  | some _ =>
    match response with
    | none => ⟨.error "HTTP request failed", current, none⟩
    | some (statusOk, body) =>
      if statusOk = false then ⟨.error "HTTP error", current, none⟩
      else
        let keys := parseBlocklist body
        if keys = ∅ then
          ⟨.error "Remote blocklist is empty. Ignoring update to preserve protection.",
            current, none⟩
        else
          ⟨.ok keys.card, keys, if persistOk then some keys else none⟩

/-- A concrete blocklist file: one comment line, three valid base58 keys,
one malformed line, one blank line. -/
def exampleBlocklistContent : String :=
  "# Comment line\n11111111111111111111111111111112\nTokenkegQfeZyiNwAJbNbGKPFXCWuBvf9Ss623VQ5DA\ninvalid_key_here\n\nSo11111111111111111111111111111111111111112\n"

/-! ## Schedule refresh (Cartographer::update_schedule) -/

/-- The fields of the upstream epoch info used by update_schedule. -/
structure EpochInfo where
  epoch : Nat
  absoluteSlot : Nat
  slotIndex : Nat
deriving DecidableEq

/-- The schedule-related state of the Cartographer: the slot-to-leader
map, the stored epoch, and the slot tracker. -/
structure SchedState where
  schedule : Nat → Option Pubkey
  currentEpoch : Nat
  currentSlot : Nat

/-- Conversion of the upstream leader schedule (validator key string to
relative slot offsets) into the absolute slot-to-leader map: keys failing
base58 parse are skipped, each relative slot is offset by the epoch start,
and later inserts overwrite earlier ones. -/
def buildSchedule (startSlot : Nat) (scheduleData : List (String × List Nat)) :
    Nat → Option Pubkey :=
  scheduleData.foldl
    (fun m entry =>
      match pubkeyFromStr entry.1 with
      | none => m
      | some pk =>
        entry.2.foldl
          (fun m2 rel => fun s => if s = startSlot + rel then some pk else m2 s)
          m)
    (fun _ => none)

/-- Cartographer.update_schedule with the two RPC calls passed as oracle
arguments. The schedule is refreshed only when the upstream epoch is
greater than the stored epoch or the stored epoch is zero; on refresh the
schedule is rebuilt from epoch start = absolute_slot - slot_index, the
stored epoch is updated and the slot tracker is seeded with
absolute_slot. -/
def updateSchedule (st : SchedState) :
    Except String EpochInfo →
    Except String (Option (List (String × List Nat))) →
    Except String SchedState
  | .error e, _ => .error ("Failed to get epoch info: " ++ e)
  | .ok info, schedRes =>
    if st.currentEpoch < info.epoch ∨ st.currentEpoch = 0 then
      match schedRes with
      | .error e => .error ("Failed to get leader schedule: " ++ e)
      | .ok none => .error "ScheduleUnavailable"
      | .ok (some scheduleData) =>
        .ok { schedule :=
                buildSchedule (info.absoluteSlot - info.slotIndex) scheduleData,
              currentEpoch := info.epoch,
              currentSlot := info.absoluteSlot }
    else .ok st

/-! ## Geyser endpoint token extraction (geyser.rs) -/

/-- The parts of an already parsed http Uri that GeyserListener::connect
inspects; pathAndQuery is the as_str form, which keeps the leading slash
and any query. -/
structure ParsedUri where
  scheme : Option String
  authority : Option String
  pathAndQuery : Option String
deriving DecidableEq

/-- The token extraction and endpoint normalisation of
GeyserListener::connect; parsed is the oracle result of parsing the
endpoint as a Uri (none when parsing fails, in which case the endpoint is
used as given with no token). Returns the optional x-token and the
endpoint string handed to the channel builder. -/
def connectAuth (endpoint : String) :
    Option ParsedUri → Except String (Option String × String)
  | none => .ok (none, endpoint)
  | some uri =>
    match uri.pathAndQuery with
    | none => .ok (none, endpoint)
    | some pq =>
      if pq.length > 10 then
        match uri.authority with
        | none => .error ("Geyser URL missing authority: " ++ endpoint)
        | some auth =>
          .ok (some (String.mk (pq.toList.dropWhile (fun c => c = '/'))),
            (uri.scheme.getD "https") ++ "://" ++ auth)
      else .ok (none, endpoint)

/-- Validity of a metadata header value (visible bytes plus tab), the
check behind MetadataValue::from_str. -/
def validHeaderValue (s : String) : Bool :=
  s.toList.all (fun c => c.toNat = 9 ||
    (32 ≤ c.toNat && c.toNat ≤ 255 && c.toNat != 127))

/-- AuthInterceptor::call: when a token is configured, insert it under the
x-token metadata key on the request, failing on an invalid header value;
otherwise pass the request through. -/
def interceptorCall :
    Option String → List (String × String) →
    Except String (List (String × String))
  | none, metadata => .ok metadata
  | some t, metadata =>
    if validHeaderValue t then .ok (("x-token", t) :: metadata)
    else .error "Invalid token format"

/-! ## QUIC engine session cache (engine.rs) -/

/-- A QUIC session: an identifier and the terminal-closed predicate
(close_reason().is_some() on the quinn Connection at probe time). -/
structure Session where
  sid : Nat
  closed : Bool
deriving DecidableEq

/-- The QuicEngine state: the session cache, a map from target address to
the cached session. -/
structure EngineState where
  cache : SocketAddr → Option Session

/-- The cache-miss path of QuicEngine::get_connection: remove any stale
entry for the address, then hand the handshake oracle result through,
inserting a fresh session into the cache on success. The third component
records that a handshake was performed. -/
def connectFresh (st : EngineState) (addr : SocketAddr) :
    Except String Session →
    Except String Session × EngineState × Bool
  | .error e => (.error e, ⟨fun a => if a = addr then none else st.cache a⟩, true)
  | .ok conn =>
    (.ok conn, ⟨fun a => if a = addr then some conn else st.cache a⟩, true)

/-- QuicEngine::get_connection: probe the cache; a hit whose session is
not terminally closed is returned as a clone with no handshake; otherwise
fall through to the removal-handshake-insert path. The handshake oracle
stands for endpoint.connect followed by the await. -/
def getConnection (st : EngineState) (addr : SocketAddr)
    (handshake : Except String Session) :
    Except String Session × EngineState × Bool :=
  match st.cache addr with
  | some conn =>
    if conn.closed = false then (.ok conn, st, false)
    else connectFresh st addr handshake
  | none => connectFresh st addr handshake

/-- QuicEngine::get_connection_handle: the same acquisition, returning
the session clone to the caller. -/
def getConnectionHandle (st : EngineState) (addr : SocketAddr)
    (handshake : Except String Session) :
    Except String Session × EngineState × Bool :=
  getConnection st addr handshake

/-- QuicEngine::send_transaction: acquire the session for the target via
get_connection, then open a unidirectional stream, write the payload and
finish it (the stream phase is the streamRes oracle). -/
def sendTransaction (st : EngineState) (addr : SocketAddr)
    (handshake : Except String Session) (streamRes : Except String Unit) :
    Except String Unit × EngineState :=
  match getConnection st addr handshake with
  | (.error e, st2, _) => (.error e, st2)
  | (.ok _, st2, _) => (streamRes, st2)

/-! ## Geyser slot subscription (geyser.rs) -/

/-- The per-entry slot filter of the subscribe frame. -/
structure SubscribeRequestFilterSlots where
  filterByCommitment : Option Bool
  interslotUpdates : Option Bool
deriving DecidableEq

/-- The subscribe frame; the filter maps are modelled as association
lists (the non-slot maps carry only their keys since the code leaves them
empty). commitment is the numeric CommitmentLevel of the proto. -/
structure SubscribeRequest where
  slots : List (String × SubscribeRequestFilterSlots)
  accounts : List String
  transactions : List String
  transactionsStatus : List String
  blocks : List String
  blocksMeta : List String
  entry : List String
  commitment : Option Nat
  accountsDataSlice : List Nat
  ping : Option Nat
  fromSlot : Option Nat
deriving DecidableEq

/-- The single subscribe frame built by GeyserListener::start_tracking:
one slot filter under the key client with both options unset, every other
filter map empty, commitment unset. -/
def subscribeRequest : SubscribeRequest :=
  { slots := [("client", { filterByCommitment := none, interslotUpdates := none })]
    accounts := []
    transactions := []
    transactionsStatus := []
    blocks := []
    blocksMeta := []
    entry := []
    commitment := none
    accountsDataSlice := []
    ping := none
    fromSlot := none }

/-- The outbound request stream of start_tracking: exactly one frame is
sent into the channel before the response stream is consumed, and no
further frame is ever sent. -/
def outboundRequests : List SubscribeRequest :=
  [subscribeRequest]

/-- CommitmentLevel::Processed of the proto. -/
def commitmentProcessed : Nat := 0

/-- The SlotStatus value denoting a processed slot. -/
def slotStatusProcessed : Nat := 0

/-- A slot update message from the stream. -/
structure SubscribeUpdateSlot where
  slot : Nat
  status : Nat
deriving DecidableEq

/-- The update_oneof payload of a received message: a slot update or any
of the other variants, which the loop ignores. -/
inductive UpdateOneof where
  | slotUpdate (u : SubscribeUpdateSlot)
  | otherUpdate
deriving DecidableEq

/-- The receive-loop body of start_tracking: update_slot is called
exactly for slot updates whose status equals 0 (processed); every other
message leaves the tracker untouched. -/
def handleMessage (st : SlotState) : Option UpdateOneof → SlotState
  | some (.slotUpdate u) => if u.status = 0 then updateSlot st u.slot else st
  | _ => st

/-! ## Config validation (config.rs) -/

structure Config where
  rpcPollIntervalMs : Nat
  scoutIntervalMs : Nat
  scoutLookaheadSlots : Nat
  monitorIntervalMs : Nat
  geyserReconnectDelayMs : Nat
  geyserMaxReconnectDelayMs : Nat
  quicKeepAliveSecs : Nat
  quicIdleTimeoutSecs : Nat
  defaultComputeUnitLimit : Nat
  defaultPriorityFee : Nat
deriving DecidableEq

/-- Config.validate: the cascade of checks from config.rs, with the exact
error message strings produced by the source. -/
def validate (c : Config) : Except String Unit :=
  if c.rpcPollIntervalMs < 50 then
    .error ("RPC_POLL_INTERVAL_MS=" ++ toString c.rpcPollIntervalMs ++
      " is too low (min 50ms). CPU will spike.")
  else if c.scoutIntervalMs < 50 then
    .error ("SCOUT_INTERVAL_MS=" ++ toString c.scoutIntervalMs ++
      " is too low (min 50ms). CPU will spike.")
  else if c.monitorIntervalMs < 50 then
    .error ("MONITOR_INTERVAL_MS=" ++ toString c.monitorIntervalMs ++
      " is too low (min 50ms). CPU will spike.")
  else if c.defaultComputeUnitLimit = 0 then
    .error "DEFAULT_COMPUTE_UNIT_LIMIT=0 means all transactions will fail."
  else if c.quicIdleTimeoutSecs = 0 then
    .error "QUIC_IDLE_TIMEOUT_SECS=0 means connections disconnect immediately."
  else if c.quicIdleTimeoutSecs ≤ c.quicKeepAliveSecs then
    .error ("QUIC_KEEP_ALIVE_SECS=" ++ toString c.quicKeepAliveSecs ++
      " must be less than QUIC_IDLE_TIMEOUT_SECS=" ++
      toString c.quicIdleTimeoutSecs ++ ".")
  else if c.geyserMaxReconnectDelayMs < c.geyserReconnectDelayMs then
    .error ("GEYSER_MAX_RECONNECT_DELAY_MS=" ++
      toString c.geyserMaxReconnectDelayMs ++
      " must be >= GEYSER_RECONNECT_DELAY_MS=" ++
      toString c.geyserReconnectDelayMs ++ ".")
  else .ok ()

/-- The default configuration produced by Config.from_env with no
environment variables set. -/
def defaultConfig : Config :=
  { rpcPollIntervalMs := 400
    scoutIntervalMs := 1000
    scoutLookaheadSlots := 10
    monitorIntervalMs := 400
    geyserReconnectDelayMs := 1000
    geyserMaxReconnectDelayMs := 10000
    quicKeepAliveSecs := 5
    quicIdleTimeoutSecs := 10
    defaultComputeUnitLimit := 200000
    defaultPriorityFee := 100000 }

/-- The default configuration with RPC_POLL_INTERVAL_MS overridden to 10. -/
def configPoll10 : Config :=
  { defaultConfig with rpcPollIntervalMs := 10 }

/-- The default configuration with QUIC_KEEP_ALIVE_SECS = 15 and
QUIC_IDLE_TIMEOUT_SECS = 10. -/
def configKeepAlive15 : Config :=
  { defaultConfig with quicKeepAliveSecs := 15, quicIdleTimeoutSecs := 10 }

/-- The substring relation on strings, used to state that an error
message contains a given phrase. -/
def strContains (s pat : String) : Prop :=
  ∃ pre post, s = pre ++ pat ++ post

/-! ## Lemmas about get_upcoming_leaders -/

/-- The loop body of get_upcoming_leaders treats each slot exactly as
get_target does. -/
lemma upcomingLoop_cons (st : CartState) (s : Nat) (rest : List Nat)
    (acc : List SocketAddr) :
    upcomingLoop st (s :: rest) acc =
      match getTarget st s with
      | none => upcomingLoop st rest acc
      | some addr =>
        if addr ∈ acc then upcomingLoop st rest acc
        else upcomingLoop st rest (acc ++ [addr]) := by
  conv_lhs => rw [upcomingLoop]
  unfold getTarget
  cases h : st.schedule s with
  | none => simp
  | some pk =>
    by_cases hb : pk ∈ st.blocklist
    · simp [hb]
    · simp [hb]

/-- firstDedupAux depends on the seen accumulator only through
membership. -/
lemma firstDedupAux_congr (l : List SocketAddr) :
    ∀ s₁ s₂ : List SocketAddr, (∀ x, x ∈ s₁ ↔ x ∈ s₂) →
      firstDedupAux s₁ l = firstDedupAux s₂ l := by
  induction l with
  | nil => intro s₁ s₂ _; rfl
  | cons a l ih =>
    intro s₁ s₂ hmem
    unfold firstDedupAux
    by_cases h : a ∈ s₁
    · rw [if_pos h, if_pos ((hmem a).mp h), ih s₁ s₂ hmem]
    · rw [if_neg h, if_neg (fun hc => h ((hmem a).mpr hc))]
      have : ∀ x, x ∈ a :: s₁ ↔ x ∈ a :: s₂ := by
        intro x; simp [hmem x]
      rw [ih (a :: s₁) (a :: s₂) this]

/-- The accumulator loop of get_upcoming_leaders is the accumulator
followed by the first-encounter dedup (relative to the accumulator) of
the get_target results over the scanned slots. -/
lemma upcomingLoop_spec (st : CartState) :
    ∀ (slots : List Nat) (acc : List SocketAddr),
      upcomingLoop st slots acc =
        acc ++ firstDedupAux acc (slots.filterMap (getTarget st)) := by
  intro slots
  induction slots with
  | nil => intro acc; simp [upcomingLoop, firstDedupAux]
  | cons s rest ih =>
    intro acc
    rw [upcomingLoop_cons]
    cases h : getTarget st s with
    | none => simp [List.filterMap_cons, h, ih]
    | some addr =>
      simp only [List.filterMap_cons, h]
      have hcons : ∀ seen : List SocketAddr,
          firstDedupAux seen (addr :: List.filterMap (getTarget st) rest) =
            if addr ∈ seen then
              firstDedupAux seen (List.filterMap (getTarget st) rest)
            else addr :: firstDedupAux (addr :: seen)
              (List.filterMap (getTarget st) rest) := by
        intro seen; rw [firstDedupAux]
      by_cases ha : addr ∈ acc
      · simp only [ha, if_true]
        rw [ih, hcons, if_pos ha]
      · simp only [ha, if_false]
        have hcongr : firstDedupAux (acc ++ [addr])
            (List.filterMap (getTarget st) rest) =
            firstDedupAux (addr :: acc)
            (List.filterMap (getTarget st) rest) := by
          apply firstDedupAux_congr
          intro x
          simp [List.mem_append, or_comm]
        rw [ih (acc ++ [addr]), hcongr, hcons, if_neg ha]
        simp

/-- Every element of firstDedupAux seen l comes from l and avoids seen. -/
lemma mem_firstDedupAux (l : List SocketAddr) :
    ∀ (seen : List SocketAddr) (a : SocketAddr),
      a ∈ firstDedupAux seen l ↔ a ∈ l ∧ a ∉ seen := by
  induction l with
  | nil => intro seen a; simp [firstDedupAux]
  | cons b l ih =>
    intro seen a
    rw [firstDedupAux]
    by_cases hb : b ∈ seen
    · rw [if_pos hb, ih]
      constructor
      · rintro ⟨hl, hs⟩; exact ⟨List.mem_cons_of_mem _ hl, hs⟩
      · rintro ⟨hl, hs⟩
        rcases List.mem_cons.mp hl with rfl | hl
        · exact absurd hb hs
        · exact ⟨hl, hs⟩
    · rw [if_neg hb]
      simp only [List.mem_cons, ih]
      by_cases hab : a = b
      · subst hab; simp [hb]
      · tauto

/-- firstDedupAux yields a list without duplicates. -/
lemma firstDedupAux_nodup (l : List SocketAddr) :
    ∀ seen : List SocketAddr, (firstDedupAux seen l).Nodup := by
  induction l with
  | nil => intro seen; simp [firstDedupAux]
  | cons a l ih =>
    intro seen
    rw [firstDedupAux]
    by_cases h : a ∈ seen
    · rw [if_pos h]; exact ih seen
    · rw [if_neg h]
      refine List.nodup_cons.mpr ⟨?_, ih (a :: seen)⟩
      intro hmem
      exact ((mem_firstDedupAux l (a :: seen) a).mp hmem).2 (List.mem_cons_self a seen)

/-! ## Claim theorems (first group) -/

/-- C1: for every slot S and every state of the node map, leader schedule
and blocklist, get_target S returns some addr exactly when there is a
validator key k with schedule S = some k, k not blocked, and
nodeMap k = some addr; in every other case it returns none. -/
theorem c1_get_target_iff (st : CartState) (s : Nat) (addr : SocketAddr) :
    getTarget st s = some addr ↔
      ∃ k, st.schedule s = some k ∧ k ∉ st.blocklist ∧
        st.nodeMap k = some addr := by
  unfold getTarget
  cases h : st.schedule s with
  | none => simp
  | some k =>
    by_cases hb : k ∈ st.blocklist <;> simp [hb]

/-- C2: get_upcoming_leaders cur k returns a list of pairwise-distinct
addresses; an address is in the list exactly when it equals get_target s
for some slot s in cur+1..cur+k; and the list is the first-encounter-order
deduplication of the get_target results over that slot range in ascending
order (duplicates suppressed, blocked validators excluded since a blocked
leader has get_target = none). -/
theorem c2_get_upcoming_leaders_spec (st : CartState) (cur k : Nat) :
    (getUpcomingLeaders st cur k).Nodup ∧
    (∀ a, a ∈ getUpcomingLeaders st cur k ↔
      ∃ s, cur + 1 ≤ s ∧ s ≤ cur + k ∧ getTarget st s = some a) ∧
    getUpcomingLeaders st cur k =
      firstDedup ((upcomingSlots cur k).filterMap (getTarget st)) := by
  have heq : getUpcomingLeaders st cur k =
      firstDedup ((upcomingSlots cur k).filterMap (getTarget st)) := by
    unfold getUpcomingLeaders firstDedup
    rw [upcomingLoop_spec]
    simp
  refine ⟨?_, ?_, heq⟩
  · rw [heq]; exact firstDedupAux_nodup _ []
  · intro a
    rw [heq]
    unfold firstDedup
    rw [mem_firstDedupAux]
    simp only [List.not_mem_nil, not_false_iff, and_true]
    rw [List.mem_filterMap]
    constructor
    · rintro ⟨s, hs, hget⟩
      refine ⟨s, ?_, ?_, hget⟩ <;>
        · unfold upcomingSlots at hs
          simp only [List.mem_map, List.mem_range] at hs
          obtain ⟨i, hi, rfl⟩ := hs
          omega
    · rintro ⟨s, hs1, hs2, hget⟩
      refine ⟨s, ?_, hget⟩
      unfold upcomingSlots
      simp only [List.mem_map, List.mem_range]
      exact ⟨s - cur - 1, by omega, by omega⟩

/-- C10: update_slot is an unconditional overwrite: after update_slot s,
get_known_slot returns exactly s, for every prior state, including when s
is lower than the previously stored slot. -/
theorem c10_update_slot_overwrite (st : SlotState) (s : Nat) :
    getKnownSlot (updateSlot st s) = s := rfl

/-- C4: config validation accepts exactly the configurations meeting all
constraints (intervals at least 50 ms, nonzero compute unit limit, nonzero
idle timeout, keep-alive strictly below idle timeout, max reconnect delay
at least the initial delay); rpc_poll_interval_ms = 10 produces an error
containing "too low", and keep-alive 15 with idle timeout 10 produces an
error containing "must be less than". -/
theorem c4_config_validate_spec :
    (∀ c : Config,
      validate c = .ok () ↔
        (50 ≤ c.rpcPollIntervalMs ∧ 50 ≤ c.scoutIntervalMs ∧
         50 ≤ c.monitorIntervalMs ∧ c.defaultComputeUnitLimit ≠ 0 ∧
         c.quicIdleTimeoutSecs ≠ 0 ∧
         c.quicKeepAliveSecs < c.quicIdleTimeoutSecs ∧
         c.geyserReconnectDelayMs ≤ c.geyserMaxReconnectDelayMs)) ∧
    (∃ e, validate configPoll10 = .error e ∧ strContains e "too low") ∧
    (∃ e, validate configKeepAlive15 = .error e ∧
      strContains e "must be less than") := by
  refine ⟨?_, ?_, ?_⟩
  · intro c
    unfold validate
    split_ifs with h1 h2 h3 h4 h5 h6 h7 <;>
      constructor <;> intro h <;> simp_all <;> omega
  · refine ⟨"RPC_POLL_INTERVAL_MS=10 is too low (min 50ms). CPU will spike.",
      by rfl, "RPC_POLL_INTERVAL_MS=10 is ", " (min 50ms). CPU will spike.", by decide⟩
  · refine ⟨"QUIC_KEEP_ALIVE_SECS=15 must be less than QUIC_IDLE_TIMEOUT_SECS=10.",
      by rfl, "QUIC_KEEP_ALIVE_SECS=15 ", " QUIC_IDLE_TIMEOUT_SECS=10.", by decide⟩

/-- Characterisation of one parsed blocklist line. -/
lemma blocklistLine_eq_some (line : String) (k : Pubkey) :
    blocklistLine line = some k ↔
      trimStr line ≠ "" ∧ startsWithChar '#' (trimStr line) = false ∧
        pubkeyFromStr (trimStr line) = some k := by
  unfold blocklistLine
  split_ifs with h1 h2 <;> simp_all

/-- C9: for every input text, blocklist parsing yields exactly the keys
obtained by taking one base58 key per (trimmed) line, ignoring blank lines
and lines beginning with the comment mark, and skipping malformed lines;
the concrete file with a comment line, three valid base58 keys, one
malformed line and one blank line parses to a set of size 3. -/
theorem c9_parse_blocklist_spec :
    (∀ (content : String) (k : Pubkey),
      k ∈ parseBlocklist content ↔
        ∃ line, line ∈ rustLines content ∧ trimStr line ≠ "" ∧
          startsWithChar '#' (trimStr line) = false ∧
          pubkeyFromStr (trimStr line) = some k) ∧
    (parseBlocklist exampleBlocklistContent).card = 3 := by
  constructor
  · intro content k
    unfold parseBlocklist
    rw [List.mem_toFinset, List.mem_filterMap]
    constructor
    · rintro ⟨line, hmem, hline⟩
      exact ⟨line, hmem, (blocklistLine_eq_some line k).mp hline⟩
    · rintro ⟨line, hmem, h1, h2, h3⟩
      exact ⟨line, hmem, (blocklistLine_eq_some line k).mpr ⟨h1, h2, h3⟩⟩
  · decide

/-- C3: a remote fetch whose body parses to the empty key set returns an
error, leaves the in-memory blocklist unchanged and writes nothing to the
local file; and whenever a fetch changes the in-memory set, the response
body parsed to a non-empty set which becomes the new in-memory set. -/
theorem c3_fetch_remote_empty_guard :
    (∀ (url body : String) (persistOk : Bool) (current : Finset Pubkey),
      parseBlocklist body = ∅ →
        (∃ e, (fetchRemote (some url) (some (true, body)) persistOk
            current).result = .error e) ∧
        (fetchRemote (some url) (some (true, body)) persistOk
            current).blocklist = current ∧
        (fetchRemote (some url) (some (true, body)) persistOk
            current).fileWrite = none) ∧
    (∀ (remoteUrl : Option String) (response : Option (Bool × String))
        (persistOk : Bool) (current : Finset Pubkey),
      (fetchRemote remoteUrl response persistOk current).blocklist ≠ current →
        ∃ statusOk body, response = some (statusOk, body) ∧
          parseBlocklist body ≠ ∅ ∧
          (fetchRemote remoteUrl response persistOk current).blocklist =
            parseBlocklist body) := by
  constructor
  · intro url body persistOk current h
    unfold fetchRemote
    simp [h]
  · intro remoteUrl response persistOk current h
    cases remoteUrl with
    | none => simp [fetchRemote] at h
    | some url =>
      cases response with
      | none => simp [fetchRemote] at h
      | some pair =>
        obtain ⟨statusOk, body⟩ := pair
        refine ⟨statusOk, body, rfl, ?_⟩
        cases statusOk with
        | false => simp [fetchRemote] at h
        | true =>
          by_cases hp : parseBlocklist body = ∅
          · simp [fetchRemote, hp] at h
          · simp [fetchRemote, hp]

/-- Witness for C3 at a concrete input: empty body over the singleton
in-memory set; the guard fires and the set survives. -/
theorem c3_fetch_remote_empty_guard_witness :
    (∃ e, (fetchRemote (some "u") (some (true, "")) true
        {([0] : Pubkey)}).result = .error e) ∧
    (fetchRemote (some "u") (some (true, "")) true
        {([0] : Pubkey)}).blocklist = {([0] : Pubkey)} ∧
    (fetchRemote (some "u") (some (true, "")) true
        {([0] : Pubkey)}).fileWrite = none :=
  c3_fetch_remote_empty_guard.1 "u" "" true {([0] : Pubkey)} (by decide)

/-- C6 counterexample: with stored epoch 2, an upstream epoch of 1
differs from the stored epoch, yet update_schedule does not install a
fresh schedule (the code refreshes only on a greater upstream epoch or a
zero stored epoch): there is no resulting state with the stored epoch
updated to 1 and the slot seeded from absolute_slot. -/
theorem c6_update_schedule_counterexample :
    ¬ (((1 : Nat) ≠ 2 ∨ (2 : Nat) = 0) →
      ∃ st' : SchedState,
        updateSchedule ⟨fun _ => none, 2, 7⟩ (.ok ⟨1, 100, 0⟩) (.ok (some [])) =
          .ok st' ∧ st'.currentEpoch = 1 ∧ st'.currentSlot = 100) := by
  intro h
  obtain ⟨st', heq, he, hs⟩ := h (Or.inl (by decide))
  have hred : updateSchedule ⟨fun _ => none, 2, 7⟩ (.ok ⟨1, 100, 0⟩)
      (.ok (some [])) = .ok ⟨fun _ => none, 2, 7⟩ := by
    rw [updateSchedule, if_neg (by decide)]
  rw [hred] at heq
  injection heq with h2
  rw [← h2] at he
  simp at he

/-- C6 amended: update_schedule fetches and installs a fresh leader
schedule (updating the stored epoch and seeding the slot tracker from
absolute_slot) exactly when the upstream epoch is greater than the stored
epoch or the stored epoch is zero; otherwise (upstream epoch equal to or
below a nonzero stored epoch) it leaves schedule, epoch and slot
unchanged. -/
theorem c6_update_schedule_amended (st : SchedState) (info : EpochInfo)
    (scheduleData : List (String × List Nat)) :
    (st.currentEpoch < info.epoch ∨ st.currentEpoch = 0 →
      updateSchedule st (.ok info) (.ok (some scheduleData)) =
        .ok ⟨buildSchedule (info.absoluteSlot - info.slotIndex) scheduleData,
          info.epoch, info.absoluteSlot⟩) ∧
    (¬(st.currentEpoch < info.epoch ∨ st.currentEpoch = 0) →
      updateSchedule st (.ok info) (.ok (some scheduleData)) = .ok st) := by
  constructor
  · intro h
    rw [updateSchedule, if_pos h]
  · intro h
    rw [updateSchedule, if_neg h]

/-- Witness for C6 amended at concrete inputs: a first run (stored epoch
zero) installs the fetched schedule and seeds the slot; an unchanged
nonzero epoch leaves the state alone. -/
theorem c6_update_schedule_amended_witness :
    updateSchedule ⟨fun _ => none, 0, 0⟩ (.ok ⟨1, 10, 2⟩) (.ok (some [])) =
      .ok ⟨buildSchedule 8 [], 1, 10⟩ ∧
    updateSchedule ⟨fun _ => none, 3, 5⟩ (.ok ⟨3, 10, 2⟩) (.ok (some [])) =
      .ok ⟨fun _ => none, 3, 5⟩ :=
  ⟨(c6_update_schedule_amended ⟨fun _ => none, 0, 0⟩ ⟨1, 10, 2⟩ []).1
      (Or.inr rfl),
   (c6_update_schedule_amended ⟨fun _ => none, 3, 5⟩ ⟨3, 10, 2⟩ []).2
      (by decide)⟩

/-- C7 counterexample: for the endpoint https://h/0123456789 the path
stripped of the leading separator has length exactly 10, so the claim
says no token is extracted; the code tests the unstripped path-and-query
length (11 here) against 10 and does extract the token. -/
theorem c7_connect_token_counterexample :
    ¬ ((String.mk (("/0123456789" : String).toList.dropWhile
        (fun c => c = '/'))).length > 10) ∧
    connectAuth "https://h/0123456789"
        (some ⟨some "https", some "h", some "/0123456789"⟩) =
      .ok (some "0123456789", "https://h") := by
  constructor
  · decide
  · rfl

/-- C7 amended: connect extracts an auth token exactly when the endpoint
parses as a Uri whose path-and-query string, including the leading slash
and any query, has length greater than 10; the token is that string
stripped of all leading slash characters and is inserted as the x-token
metadata header by the interceptor on every request; the endpoint is then
normalised to scheme://authority with the scheme defaulting to https, and
a missing authority is an error; in every other case the endpoint is used
unmodified and no token is sent. -/
theorem c7_connect_token_amended :
    (∀ endpoint : String, connectAuth endpoint none = .ok (none, endpoint)) ∧
    (∀ (endpoint : String) (uri : ParsedUri), uri.pathAndQuery = none →
      connectAuth endpoint (some uri) = .ok (none, endpoint)) ∧
    (∀ (endpoint : String) (uri : ParsedUri) (pq : String),
      uri.pathAndQuery = some pq → ¬(pq.length > 10) →
        connectAuth endpoint (some uri) = .ok (none, endpoint)) ∧
    (∀ (endpoint : String) (uri : ParsedUri) (pq auth : String),
      uri.pathAndQuery = some pq → pq.length > 10 → uri.authority = some auth →
        connectAuth endpoint (some uri) =
          .ok (some (String.mk (pq.toList.dropWhile (fun c => c = '/'))),
            (uri.scheme.getD "https") ++ "://" ++ auth)) ∧
    (∀ (endpoint : String) (uri : ParsedUri) (pq : String),
      uri.pathAndQuery = some pq → pq.length > 10 → uri.authority = none →
        ∃ e, connectAuth endpoint (some uri) = .error e) ∧
    (∀ metadata, interceptorCall none metadata = .ok metadata) ∧
    (∀ (t : String) (metadata : List (String × String)),
      validHeaderValue t = true →
        interceptorCall (some t) metadata = .ok (("x-token", t) :: metadata)) := by
  refine ⟨fun e => rfl, ?_, ?_, ?_, ?_, fun md => rfl, ?_⟩
  · intro e uri hp
    rw [connectAuth, hp]
  · intro e uri pq hp hlen
    rw [connectAuth, hp]
    exact if_neg hlen
  · intro e uri pq auth hp hlen ha
    rw [connectAuth, hp]
    show (if pq.length > 10 then
        match uri.authority with
        | none => Except.error ("Geyser URL missing authority: " ++ e)
        | some auth2 =>
          Except.ok (some (String.mk (pq.toList.dropWhile (fun c => c = '/'))),
            (uri.scheme.getD "https") ++ "://" ++ auth2)
      else Except.ok (none, e)) =
      Except.ok (some (String.mk (pq.toList.dropWhile (fun c => c = '/'))),
        (uri.scheme.getD "https") ++ "://" ++ auth)
    rw [if_pos hlen, ha]
  · intro e uri pq hp hlen ha
    refine ⟨"Geyser URL missing authority: " ++ e, ?_⟩
    rw [connectAuth, hp]
    show (if pq.length > 10 then
        match uri.authority with
        | none => Except.error ("Geyser URL missing authority: " ++ e)
        | some auth2 =>
          Except.ok (some (String.mk (pq.toList.dropWhile (fun c => c = '/'))),
            (uri.scheme.getD "https") ++ "://" ++ auth2)
      else Except.ok (none, e)) =
      Except.error ("Geyser URL missing authority: " ++ e)
    rw [if_pos hlen, ha]
  · intro t md hv
    rw [interceptorCall, if_pos hv]

/-- Witness for C7 amended at concrete inputs: short path leaves the
endpoint untouched with no token; a 12-character path yields the stripped
token and the normalised endpoint; a missing authority errors; the
interceptor inserts the x-token header for a valid token. -/
theorem c7_connect_token_amended_witness :
    connectAuth "e" (some ⟨none, none, some "/short"⟩) = .ok (none, "e") ∧
    connectAuth "https://h/t0123456789"
        (some ⟨some "https", some "h", some "/t0123456789"⟩) =
      .ok (some "t0123456789", "https://h") ∧
    (∃ e, connectAuth "x" (some ⟨none, none, some "/t0123456789"⟩) =
      .error e) ∧
    interceptorCall (some "tok") [] = .ok [("x-token", "tok")] :=
  ⟨c7_connect_token_amended.2.2.1 "e" ⟨none, none, some "/short"⟩ "/short"
      rfl (by decide),
   c7_connect_token_amended.2.2.2.1 "https://h/t0123456789"
      ⟨some "https", some "h", some "/t0123456789"⟩ "/t0123456789" "h"
      rfl (by decide) rfl,
   c7_connect_token_amended.2.2.2.2.1 "x" ⟨none, none, some "/t0123456789"⟩
      "/t0123456789" rfl (by decide) rfl,
   c7_connect_token_amended.2.2.2.2.2.2 "tok" [] (by decide)⟩

/-- C5: session acquisition (shared by send_transaction and
get_connection_handle): a cache hit whose session is not terminally
closed is returned unchanged with no handshake; otherwise the stale entry
is removed, a handshake runs, and on success the fresh session is
inserted and returned; every successful acquisition thus returns a
session that was either found in the cache (with the closed predicate
false) or freshly inserted. -/
theorem c5_get_connection_spec (st : EngineState) (addr : SocketAddr)
    (hs : Except String Session) :
    (∀ conn, st.cache addr = some conn → conn.closed = false →
      getConnection st addr hs = (.ok conn, st, false)) ∧
    (st.cache addr = none ∨
        (∃ conn, st.cache addr = some conn ∧ conn.closed = true) →
      (getConnection st addr hs).2.2 = true ∧
      (∀ s, hs = .ok s → (getConnection st addr hs).1 = .ok s ∧
        ((getConnection st addr hs).2.1).cache addr = some s) ∧
      (∀ e, hs = .error e → (getConnection st addr hs).1 = .error e)) ∧
    (∀ s, (getConnection st addr hs).1 = .ok s →
      (st.cache addr = some s ∧ s.closed = false) ∨
      (hs = .ok s ∧ ((getConnection st addr hs).2.1).cache addr = some s)) ∧
    getConnectionHandle st addr hs = getConnection st addr hs ∧
    (∀ streamRes : Except String Unit,
      (sendTransaction st addr hs streamRes).2 = (getConnection st addr hs).2.1 ∧
      (∀ e, (getConnection st addr hs).1 = .error e →
        (sendTransaction st addr hs streamRes).1 = .error e) ∧
      (∀ s, (getConnection st addr hs).1 = .ok s →
        (sendTransaction st addr hs streamRes).1 = streamRes)) := by
  refine ⟨?_, ?_, ?_, rfl, ?_⟩
  · intro conn hc hcl
    simp [getConnection, hc, hcl]
  · intro h
    have hred : getConnection st addr hs = connectFresh st addr hs := by
      rcases h with hc | ⟨conn, hc, hcl⟩
      · simp [getConnection, hc]
      · simp [getConnection, hc, hcl]
    rw [hred]
    refine ⟨?_, ?_, ?_⟩
    · cases hs <;> simp [connectFresh]
    · intro s hhs
      subst hhs
      simp [connectFresh]
    · intro e hhs
      subst hhs
      simp [connectFresh]
  · intro s hok
    cases hc : st.cache addr with
    | some conn =>
      by_cases hcl : conn.closed = false
      · left
        have : getConnection st addr hs = (.ok conn, st, false) := by
          simp [getConnection, hc, hcl]
        rw [this] at hok
        have h1 : conn = s := by injection hok
        rw [← h1]
        exact ⟨rfl, hcl⟩
      · right
        have hred : getConnection st addr hs = connectFresh st addr hs := by
          simp [getConnection, hc, hcl]
        rw [hred] at hok ⊢
        cases hs with
        | error e => simp [connectFresh] at hok
        | ok s2 =>
          simp [connectFresh] at hok ⊢
          simp_all
    | none =>
      right
      have hred : getConnection st addr hs = connectFresh st addr hs := by
        simp [getConnection, hc]
      rw [hred] at hok ⊢
      cases hs with
      | error e => simp [connectFresh] at hok
      | ok s2 =>
        simp [connectFresh] at hok ⊢
        simp_all
  · intro streamRes
    rcases hg : getConnection st addr hs with ⟨res, st2, hsd⟩
    cases res with
    | error e0 =>
      refine ⟨by simp [sendTransaction, hg], ?_, ?_⟩
      · intro e he
        simp at he
        subst he
        simp [sendTransaction, hg]
      · intro s hok
        simp at hok
    | ok s0 =>
      refine ⟨by simp [sendTransaction, hg], ?_, ?_⟩
      · intro e he
        simp at he
      · intro s hok
        simp [sendTransaction, hg]

/-- Witness for C5 at concrete inputs: a live cached session for address
0 is returned with no handshake; an empty cache for address 1 leads to a
handshake whose fresh session is inserted and returned. -/
theorem c5_get_connection_spec_witness :
    getConnection ⟨fun a => if a = 0 then some ⟨5, false⟩ else none⟩ 0
        (.ok ⟨9, false⟩) =
      (.ok ⟨5, false⟩, ⟨fun a => if a = 0 then some ⟨5, false⟩ else none⟩,
        false) ∧
    (getConnection ⟨fun _ => none⟩ 1 (.ok ⟨9, false⟩)).1 = .ok ⟨9, false⟩ ∧
    ((getConnection ⟨fun _ => none⟩ 1 (.ok ⟨9, false⟩)).2.1).cache 1 =
      some ⟨9, false⟩ ∧
    (getConnection ⟨fun _ => none⟩ 1 (.ok ⟨9, false⟩)).2.2 = true :=
  ⟨(c5_get_connection_spec ⟨fun a => if a = 0 then some ⟨5, false⟩ else none⟩
      0 (.ok ⟨9, false⟩)).1 ⟨5, false⟩ rfl rfl,
   ((c5_get_connection_spec ⟨fun _ => none⟩ 1 (.ok ⟨9, false⟩)).2.1
      (Or.inl rfl)).2.1 ⟨9, false⟩ rfl |>.1,
   ((c5_get_connection_spec ⟨fun _ => none⟩ 1 (.ok ⟨9, false⟩)).2.1
      (Or.inl rfl)).2.1 ⟨9, false⟩ rfl |>.2,
   ((c5_get_connection_spec ⟨fun _ => none⟩ 1 (.ok ⟨9, false⟩)).2.1
      (Or.inl rfl)).1⟩

/-- C8 counterexample: the subscribe frame built by start_tracking sets
no status filter at all: its commitment field is unset rather than set to
the processed level, and the slot filter leaves filter_by_commitment
unset; the processed filtering happens client side on received updates. -/
theorem c8_subscribe_frame_counterexample :
    subscribeRequest.commitment = none ∧
    subscribeRequest.commitment ≠ some commitmentProcessed ∧
    (subscribeRequest.slots.map fun p => p.2.filterByCommitment) = [none] := by
  refine ⟨rfl, by decide, rfl⟩

/-- C8 amended: the slot-feed subscription is driven by exactly one
outbound subscribe frame, sent once at start, which carries a slot filter
only (all account, transaction, block, blocks-meta and entry filter maps
empty) and leaves the commitment (status) filter unset; update_slot is
called exactly for received slot updates whose status indicates
processed (status value 0), all other messages being ignored. -/
theorem c8_subscribe_spec_amended :
    outboundRequests = [subscribeRequest] ∧
    subscribeRequest.slots =
      [("client", { filterByCommitment := none, interslotUpdates := none })] ∧
    subscribeRequest.accounts = [] ∧
    subscribeRequest.transactions = [] ∧
    subscribeRequest.transactionsStatus = [] ∧
    subscribeRequest.blocks = [] ∧
    subscribeRequest.blocksMeta = [] ∧
    subscribeRequest.entry = [] ∧
    subscribeRequest.commitment = none ∧
    subscribeRequest.fromSlot = none ∧
    (∀ (st : SlotState) (u : SubscribeUpdateSlot),
      handleMessage st (some (.slotUpdate u)) =
        if u.status = slotStatusProcessed then updateSlot st u.slot else st) ∧
    (∀ st : SlotState, handleMessage st none = st) ∧
    (∀ st : SlotState, handleMessage st (some .otherUpdate) = st) := by
  exact ⟨rfl, rfl, rfl, rfl, rfl, rfl, rfl, rfl, rfl, rfl,
    fun st u => rfl, fun st => rfl, fun st => rfl⟩

end Scramjet
